import Mathlib

/-!
Shallow embedding of the `slack-send-message` action
(`src/src/script.mjs` together with the bundled helpers in
`src/dist/index.js`): input parameters, execution context, the
address and authorization resolvers, the two send paths, the
`invoke` dispatcher, and the `error` handler.

JavaScript strings that may be `undefined` are modelled as
`Option String`; JS truthiness on such a value (`undefined` and the
empty string are falsy) is the `truthy` predicate below.  Errors
thrown by the JS code are modelled as `Except.error msg` carrying the
error's message string.  Outbound HTTP is modelled by a `World`
holding the response each of the (at most two) fetches would receive,
and every embedded operation additionally returns the list of network
calls it performed, so that claims about "no network call" and
"exactly one call" are statable.
-/

/-- JS truthiness of a possibly-undefined string: `undefined` and `""`
are falsy, every other string is truthy. -/
def truthy : Option String → Bool
  | none => false
  | some s => !(s == "")

/-- Input parameters of the action (`params` in `script.mjs`):
`text`, `channel`, `isWebhook` (defaulting to `false` at the
destructuring site, so modelled as a plain `Bool`), and the optional
`address` override. -/
structure Params where
  text : Option String
  channel : Option String
  isWebhook : Bool
  address : Option String
  deriving DecidableEq

/-- Secret values of the execution context (`context.secrets`). -/
structure Secrets where
  BEARER_AUTH_TOKEN : Option String
  BASIC_USERNAME : Option String
  BASIC_PASSWORD : Option String
  OAUTH2_AUTHORIZATION_CODE_ACCESS_TOKEN : Option String
  OAUTH2_CLIENT_CREDENTIALS_CLIENT_SECRET : Option String
  deriving DecidableEq

/-- Environment values of the execution context
(`context.environment`). -/
structure Env where
  ADDRESS : Option String
  OAUTH2_CLIENT_CREDENTIALS_TOKEN_URL : Option String
  OAUTH2_CLIENT_CREDENTIALS_CLIENT_ID : Option String
  OAUTH2_CLIENT_CREDENTIALS_SCOPE : Option String
  OAUTH2_CLIENT_CREDENTIALS_AUDIENCE : Option String
  OAUTH2_CLIENT_CREDENTIALS_AUTH_STYLE : Option String
  deriving DecidableEq

/-- Execution context supplied by the framework. -/
structure Context where
  environment : Env
  secrets : Secrets
  deriving DecidableEq

/-- Parsed JSON body of a Slack Web API response
(`{ok, error?, ts?, channel?}`); optional fields are `Option`. -/
structure SlackBody where
  ok : Bool
  error : Option String
  ts : Option String
  deriving DecidableEq

/-- An HTTP response as seen through `fetch`: `ok` is the 2xx flag,
`bodyText` is what `response.text()` yields (webhook path), and
`bodyJson` is what `response.json()` yields (API path). -/
structure HttpResponse where
  ok : Bool
  status : Nat
  statusText : String
  bodyText : String
  bodyJson : SlackBody
  deriving DecidableEq

/-- Response of the OAuth2 token-exchange POST: `errorText` stands for
the serialized error body used in the failure message, and
`access_token` for the token field of the parsed JSON body. -/
structure TokenResponse where
  ok : Bool
  status : Nat
  statusText : String
  errorText : String
  access_token : Option String
  deriving DecidableEq

/-- The oracle for outbound HTTP: the response the token-exchange
fetch would receive and the response the main webhook/API fetch would
receive.  At most one fetch of each kind occurs per invocation. -/
structure World where
  tokenResponse : TokenResponse
  mainResponse : HttpResponse
  deriving DecidableEq

/-- One outbound network call, identified by its target URL. -/
inductive NetCall where
  | post (url : String)
  deriving DecidableEq

deriving instance DecidableEq for Except

/-- JS `String.prototype.trim` on the ASCII strings relevant here:
whitespace removed from both ends, computed structurally over the
character list so that it evaluates by `decide`/`rfl`. -/
def jsTrim (s : String) : String :=
  String.mk (((s.toList.dropWhile Char.isWhitespace).reverse.dropWhile
    Char.isWhitespace).reverse)

/-- JS `String.prototype.startsWith`, computed structurally. -/
def jsStartsWith (s pat : String) : Bool :=
  pat.toList.isPrefixOf s.toList

/-- JS `address.endsWith('/')`: the last character is a slash. -/
def jsEndsWithSlash (s : String) : Bool :=
  s.toList.getLast? == some '/'

/-- JS `address.slice(0, -1)`: the string without its last
character. -/
def jsDropLast (s : String) : String :=
  String.mk s.toList.dropLast

/-- Base64 alphabet character for a 6-bit value, as used by `btoa`. -/
def b64char (n : Nat) : Char :=
  (("ABCDEFGHIJKLMNOPQRSTUVWXYZabcdefghijklmnopqrstuvwxyz0123456789+/").toList.getD n 'A')

/-- Base64-encode a byte list three bytes at a time (the body of
`btoa`). -/
def b64encode : List Nat → List Char
  | [] => []
  | [a] =>
      [b64char (a / 4), b64char (a % 4 * 16), '=', '=']
  | [a, b] =>
      [b64char (a / 4), b64char (a % 4 * 16 + b / 16), b64char (b % 16 * 4), '=']
  | a :: b :: c :: rest =>
      b64char (a / 4) :: b64char (a % 4 * 16 + b / 16) ::
      b64char (b % 16 * 4 + c / 64) :: b64char (c % 64) :: b64encode rest

/-- JS `btoa`: base64 of the string viewed as latin-1 bytes (each code
point taken modulo 256; `btoa` itself rejects code points above 255,
and the `user:password` pairs fed to it here are ASCII). -/
def btoa (s : String) : String :=
  String.mk (b64encode (s.toList.map (fun c => c.toNat % 256)))

/-- Prefixing step shared by the bearer-style schemes: return the
token unchanged when it already starts with "Bearer ", otherwise
prepend "Bearer ". -/
def bearerize (token : String) : String :=
  if jsStartsWith token "Bearer " then token else "Bearer " ++ token

/-- Embeds `getBaseURL` of `dist/index.js` (lines 154-164): the
explicit `params.address` when truthy, else `env.ADDRESS`; a falsy
result is the "No URL specified" error; one trailing slash is removed
when present. -/
def getBaseURL (params : Params) (env : Env) : Except String String :=
  let address : Option String := if truthy params.address then params.address else env.ADDRESS
  if truthy address then
    let a := address.getD ""
    Except.ok (if jsEndsWithSlash a then jsDropLast a else a)
  else
    Except.error "No URL specified. Provide address parameter or ADDRESS environment variable"

/-- Embeds `getClientCredentialsToken` of `dist/index.js` (lines
27-85): config check, one token-exchange POST, non-2xx failure
message, missing-access-token failure, else the token. -/
def getClientCredentialsToken (tokenUrl clientId clientSecret : String) (w : World) :
    Except String String × List NetCall :=
  if tokenUrl == "" || clientId == "" || clientSecret == "" then
    (Except.error "OAuth2 Client Credentials flow requires tokenUrl, clientId, and clientSecret", [])
  else
    let r := w.tokenResponse
    if !r.ok then
      (Except.error ("OAuth2 token request failed: " ++ toString r.status ++ " " ++
        r.statusText ++ " - " ++ r.errorText), [NetCall.post tokenUrl])
    else if truthy r.access_token then
      (Except.ok (r.access_token.getD ""), [NetCall.post tokenUrl])
    else
      (Except.error "No access_token in OAuth2 response", [NetCall.post tokenUrl])

/-- The "No authentication configured" message of `dist/index.js`
lines 140-144. -/
def noAuthMsg : String :=
  "No authentication configured. Provide one of: " ++
  "BEARER_AUTH_TOKEN, BASIC_USERNAME/BASIC_PASSWORD, " ++
  "OAUTH2_AUTHORIZATION_CODE_ACCESS_TOKEN, or OAUTH2_CLIENT_CREDENTIALS_*"

/-- Embeds `getAuthorizationHeader` of `dist/index.js` (lines 96-145):
the four credential schemes probed in source order, returning on the
first whose guard is truthy, else the "No authentication configured"
error. -/
def getAuthorizationHeader (ctx : Context) (w : World) :
    Except String String × List NetCall :=
  let env := ctx.environment
  let secrets := ctx.secrets
  if truthy secrets.BEARER_AUTH_TOKEN then
    (Except.ok (bearerize (secrets.BEARER_AUTH_TOKEN.getD "")), [])
  else if truthy secrets.BASIC_PASSWORD && truthy secrets.BASIC_USERNAME then
    (Except.ok ("Basic " ++
      btoa (secrets.BASIC_USERNAME.getD "" ++ ":" ++ secrets.BASIC_PASSWORD.getD "")), [])
  else if truthy secrets.OAUTH2_AUTHORIZATION_CODE_ACCESS_TOKEN then
    (Except.ok (bearerize (secrets.OAUTH2_AUTHORIZATION_CODE_ACCESS_TOKEN.getD "")), [])
  else if truthy secrets.OAUTH2_CLIENT_CREDENTIALS_CLIENT_SECRET then
    if !(truthy env.OAUTH2_CLIENT_CREDENTIALS_TOKEN_URL) ||
       !(truthy env.OAUTH2_CLIENT_CREDENTIALS_CLIENT_ID) then
      (Except.error "OAuth2 Client Credentials flow requires TOKEN_URL and CLIENT_ID in env", [])
    else
      match getClientCredentialsToken (env.OAUTH2_CLIENT_CREDENTIALS_TOKEN_URL.getD "")
          (env.OAUTH2_CLIENT_CREDENTIALS_CLIENT_ID.getD "")
          (secrets.OAUTH2_CLIENT_CREDENTIALS_CLIENT_SECRET.getD "") w with
      | (Except.ok token, calls) => (Except.ok ("Bearer " ++ token), calls)
      | (Except.error e, calls) => (Except.error e, calls)
  else
    (Except.error noAuthMsg, [])

/-- Result object of `sendMessageViaWebhook` (`script.mjs` lines
36-40). -/
structure WebhookResult where
  ok : Bool
  text : String
  status : Nat
  deriving DecidableEq

/-- Embeds `sendMessageViaWebhook` of `script.mjs` (lines 17-41): one
POST to the webhook URL; non-2xx raises the transport error; on 2xx
the `ok` flag records whether the plain-text body equals the literal
string "ok". -/
def sendMessageViaWebhook (text webhookUrl : String) (w : World) :
    Except String WebhookResult × List NetCall :=
  let _ := text
  let r := w.mainResponse
  if !r.ok then
    (Except.error ("Webhook request failed: " ++ toString r.status ++ " " ++ r.statusText),
      [NetCall.post webhookUrl])
  else
    (Except.ok { ok := r.bodyText == "ok", text := r.bodyText, status := r.status },
      [NetCall.post webhookUrl])

/-- Embeds `sendMessageViaAPI` of `script.mjs` (lines 51-81): one POST
to `<apiUrl>/api/chat.postMessage`; non-2xx raises the transport
error; a 2xx body with `ok:false` raises the platform error built from
`result.error || 'Unknown error'`; otherwise the parsed body is
returned. -/
def sendMessageViaAPI (text channel authHeader apiUrl : String) (w : World) :
    Except String SlackBody × List NetCall :=
  let _ := (text, channel, authHeader)
  let url := apiUrl ++ "/api/chat.postMessage"
  let r := w.mainResponse
  if !r.ok then
    (Except.error ("Slack API request failed: " ++ toString r.status ++ " " ++ r.statusText),
      [NetCall.post url])
  else
    let result := r.bodyJson
    if !result.ok then
      (Except.error ("Slack API error: " ++
        (if truthy result.error then result.error.getD "" else "Unknown error")),
        [NetCall.post url])
    else
      (Except.ok result, [NetCall.post url])

/-- Result object returned by `invoke` (`script.mjs` lines 121-126 and
142-149): the webhook path leaves `channel` and `ts` undefined. -/
structure InvokeResult where
  status : String
  text : String
  ok : Bool
  mode : String
  channel : Option String
  ts : Option String
  deriving DecidableEq

/-- Embeds the `invoke` handler of `script.mjs` (lines 101-151): text
validation, then the webhook branch (address resolution and one
webhook POST) or the API branch (channel validation, authorization
resolution, address resolution, one API POST). -/
def invoke (params : Params) (ctx : Context) (w : World) :
    Except String InvokeResult × List NetCall :=
  let text := params.text
  let channel := params.channel
  let isWebhook := params.isWebhook
  if !(truthy text) || ((jsTrim (text.getD "")).length == 0) then
    (Except.error "text parameter is required and cannot be empty", [])
  else
    let t := text.getD ""
    if isWebhook then
      match getBaseURL params ctx.environment with
      | Except.error e => (Except.error e, [])
      | Except.ok webhookUrl =>
        match sendMessageViaWebhook t webhookUrl w with
        | (Except.error e, calls) => (Except.error e, calls)
        | (Except.ok result, calls) =>
          (Except.ok { status := "success", text := t, ok := result.ok, mode := "webhook"
                       channel := none, ts := none }, calls)
    else
      if !(truthy channel) || ((jsTrim (channel.getD "")).length == 0) then
        (Except.error "channel parameter is required for API mode", [])
      else
        match getAuthorizationHeader ctx w with
        | (Except.error e, authCalls) => (Except.error e, authCalls)
        | (Except.ok authHeader, authCalls) =>
          match getBaseURL params ctx.environment with
          | Except.error e => (Except.error e, authCalls)
          | Except.ok apiUrl =>
            match sendMessageViaAPI t (channel.getD "") authHeader apiUrl w with
            | (Except.error e, apiCalls) => (Except.error e, authCalls ++ apiCalls)
            | (Except.ok result, apiCalls) =>
              (Except.ok { status := "success", text := t, channel := channel
                           ts := result.ts, ok := result.ok, mode := "api" },
                authCalls ++ apiCalls)

/-- Outcome a classifying error handler could return without raising:
either a SendResult from a locally retried `invoke`, or the structured
retry-requested value.  The embedded handler below never returns
either, matching the source. -/
inductive ErrOutcome where
  | retried (r : InvokeResult)
  | retryRequested
  deriving DecidableEq

/-- Embeds the `error` handler of `script.mjs` (lines 153-156) and
`dist/index.js` (lines 317-320): it destructures `params.error` and
re-throws it, ignoring the context, performing no network call and
returning nothing. -/
def errorHandler (errMessage : String) (ctx : Context) (w : World) :
    Except String ErrOutcome × List NetCall :=
  let _ := (ctx, w)
  (Except.error errMessage, [])

/-- Substring test over strings, used to state the spec's
message-token conditions ("contains 429" and so on). -/
def containsTok (s pat : String) : Bool :=
  decide (pat.toList <:+: s.toList)

set_option maxRecDepth 4000

/-! Concrete fixtures used by witnesses and counterexamples. -/

/-- Environment with no values set. -/
def emptyEnv : Env := ⟨none, none, none, none, none, none⟩

/-- Secrets with no values set. -/
def emptySecrets : Secrets := ⟨none, none, none, none, none⟩

/-- Environment whose `ADDRESS` points at a webhook URL. -/
def hookEnv : Env := ⟨some "https://hooks.example.com/svc", none, none, none, none, none⟩

/-- Environment whose `ADDRESS` points at the Slack API base URL. -/
def apiEnv : Env := ⟨some "https://slack.com", none, none, none, none, none⟩

/-- Secrets holding only a bearer token. -/
def bearerSecrets : Secrets := ⟨some "xoxb-1", none, none, none, none⟩

/-- A successful token-exchange response. -/
def tokOk : TokenResponse := ⟨true, 200, "OK", "", some "tok"⟩

/-- A world whose main response is a 200 with plain-text body "ok". -/
def hookOkWorld : World := ⟨tokOk, ⟨true, 200, "OK", "ok", ⟨true, none, none⟩⟩⟩

/-! Shared helper lemmas. -/

/-- A truthy optional string is non-empty once defaulted. -/
theorem truthy_getD_beq_false (o : Option String) (h : truthy o = true) :
    (o.getD "" == "") = false := by
  cases o with
  | none => simp [truthy] at h
  | some s => simpa [truthy] using h

/-- With non-empty configuration and a 2xx exchange response carrying
a truthy access token, the client-credentials exchange returns that
token after exactly one POST to the token URL. -/
theorem getCCT_ok (tokenUrl clientId clientSecret : String) (w : World)
    (h1 : (tokenUrl == "") = false) (h2 : (clientId == "") = false)
    (h3 : (clientSecret == "") = false)
    (h4 : w.tokenResponse.ok = true) (h5 : truthy w.tokenResponse.access_token = true) :
    getClientCredentialsToken tokenUrl clientId clientSecret w =
      (Except.ok (w.tokenResponse.access_token.getD ""), [NetCall.post tokenUrl]) := by
  simp only [getClientCredentialsToken]
  rw [h1, h2, h3, h4, h5]
  simp

/-- Scheme 1: a truthy bearer secret resolves to the (possibly
prefixed) bearer header with no network call, whatever else is set. -/
theorem auth_bearer (ctx : Context) (w : World)
    (h1 : truthy ctx.secrets.BEARER_AUTH_TOKEN = true) :
    getAuthorizationHeader ctx w =
      (Except.ok (bearerize (ctx.secrets.BEARER_AUTH_TOKEN.getD "")), []) := by
  simp only [getAuthorizationHeader]
  rw [h1]
  simp

/-- Scheme 2: with no bearer secret and a complete basic pair, the
resolver returns the Basic header with no network call. -/
theorem auth_basic (ctx : Context) (w : World)
    (h1 : truthy ctx.secrets.BEARER_AUTH_TOKEN = false)
    (h2 : (truthy ctx.secrets.BASIC_PASSWORD && truthy ctx.secrets.BASIC_USERNAME) = true) :
    getAuthorizationHeader ctx w =
      (Except.ok ("Basic " ++ btoa (ctx.secrets.BASIC_USERNAME.getD "" ++ ":" ++
        ctx.secrets.BASIC_PASSWORD.getD "")), []) := by
  simp only [getAuthorizationHeader]
  rw [h1, h2]
  simp

/-- Scheme 3: with neither bearer nor a complete basic pair, a truthy
pre-issued OAuth2 access token resolves to its bearer header with no
network call. -/
theorem auth_ac (ctx : Context) (w : World)
    (h1 : truthy ctx.secrets.BEARER_AUTH_TOKEN = false)
    (h2 : (truthy ctx.secrets.BASIC_PASSWORD && truthy ctx.secrets.BASIC_USERNAME) = false)
    (h3 : truthy ctx.secrets.OAUTH2_AUTHORIZATION_CODE_ACCESS_TOKEN = true) :
    getAuthorizationHeader ctx w =
      (Except.ok (bearerize (ctx.secrets.OAUTH2_AUTHORIZATION_CODE_ACCESS_TOKEN.getD "")), []) := by
  simp only [getAuthorizationHeader]
  rw [h1, h2, h3]
  simp

/-- Scheme 4: with the three higher-priority schemes unmatched, a
truthy client-credentials secret plus configured token URL and client
id triggers the exchange, returning the exchanged bearer token after
one POST to the token URL. -/
theorem auth_cc (ctx : Context) (w : World)
    (h1 : truthy ctx.secrets.BEARER_AUTH_TOKEN = false)
    (h2 : (truthy ctx.secrets.BASIC_PASSWORD && truthy ctx.secrets.BASIC_USERNAME) = false)
    (h3 : truthy ctx.secrets.OAUTH2_AUTHORIZATION_CODE_ACCESS_TOKEN = false)
    (h4 : truthy ctx.secrets.OAUTH2_CLIENT_CREDENTIALS_CLIENT_SECRET = true)
    (h5 : truthy ctx.environment.OAUTH2_CLIENT_CREDENTIALS_TOKEN_URL = true)
    (h6 : truthy ctx.environment.OAUTH2_CLIENT_CREDENTIALS_CLIENT_ID = true)
    (h7 : w.tokenResponse.ok = true)
    (h8 : truthy w.tokenResponse.access_token = true) :
    getAuthorizationHeader ctx w =
      (Except.ok ("Bearer " ++ w.tokenResponse.access_token.getD ""),
       [NetCall.post (ctx.environment.OAUTH2_CLIENT_CREDENTIALS_TOKEN_URL.getD "")]) := by
  have hcct := getCCT_ok (ctx.environment.OAUTH2_CLIENT_CREDENTIALS_TOKEN_URL.getD "")
    (ctx.environment.OAUTH2_CLIENT_CREDENTIALS_CLIENT_ID.getD "")
    (ctx.secrets.OAUTH2_CLIENT_CREDENTIALS_CLIENT_SECRET.getD "") w
    (truthy_getD_beq_false _ h5) (truthy_getD_beq_false _ h6)
    (truthy_getD_beq_false _ h4) h7 h8
  simp only [getAuthorizationHeader]
  rw [h1, h2, h3, h4, h5, h6, hcct]
  simp

/-- No scheme matched: the resolver fails with the
"No authentication configured" error and no network call. -/
theorem auth_none (ctx : Context) (w : World)
    (h1 : truthy ctx.secrets.BEARER_AUTH_TOKEN = false)
    (h2 : (truthy ctx.secrets.BASIC_PASSWORD && truthy ctx.secrets.BASIC_USERNAME) = false)
    (h3 : truthy ctx.secrets.OAUTH2_AUTHORIZATION_CODE_ACCESS_TOKEN = false)
    (h4 : truthy ctx.secrets.OAUTH2_CLIENT_CREDENTIALS_CLIENT_SECRET = false) :
    getAuthorizationHeader ctx w = (Except.error noAuthMsg, []) := by
  simp only [getAuthorizationHeader]
  rw [h1, h2, h3, h4]
  simp

/-- A falsy or blank-after-trimming `text` makes `invoke` raise the
validation error before any network call. -/
theorem invoke_error_of_blank_text (params : Params) (ctx : Context) (w : World)
    (hcond : (!(truthy params.text) || ((jsTrim (params.text.getD "")).length == 0)) = true) :
    invoke params ctx w =
      (Except.error "text parameter is required and cannot be empty", ([] : List NetCall)) := by
  simp only [invoke]
  rw [hcond]
  simp

/-! Claim theorems. -/

/-- The spec's recognized error-message tokens: retry-now ("429"),
retry-requested ("502"/"503"/"504"), and fatal ("401", "403",
"invalid_auth", "channel_not_found", "is required"). -/
def recognizedTokens : List String :=
  ["429", "502", "503", "504", "401", "403", "invalid_auth", "channel_not_found", "is required"]

/-- C1 (counterexample): the message "Rate limited: 429" contains
"429", yet the error handler performs no network call and re-raises
the error instead of re-invoking the dispatcher — even in a context
and world where a webhook re-invocation would succeed. -/
theorem C1_counterexample :
    containsTok "Rate limited: 429" "429" = true ∧
    errorHandler "Rate limited: 429" ⟨hookEnv, emptySecrets⟩ hookOkWorld =
      (Except.error "Rate limited: 429", ([] : List NetCall)) ∧
    invoke ⟨some "Hello!", none, true, none⟩ ⟨hookEnv, emptySecrets⟩ hookOkWorld =
      (Except.ok ⟨"success", "Hello!", true, "webhook", none, none⟩,
       [NetCall.post "https://hooks.example.com/svc"]) :=
  ⟨by decide, rfl, by decide⟩

/-- C1 (amended): for every error whose message contains "429", the
error handler performs no retry and no network call at all; it
re-raises the original error unchanged. -/
theorem C1_429_reraised_without_retry (msg : String) (ctx : Context) (w : World)
    (h : containsTok msg "429" = true) :
    errorHandler msg ctx w = (Except.error msg, ([] : List NetCall)) := rfl

/-- C1 witness: instantiates the amended claim at a concrete
rate-limit message. -/
theorem C1_witness :
    containsTok "HTTP 429 Too Many Requests" "429" = true ∧
    errorHandler "HTTP 429 Too Many Requests" ⟨apiEnv, bearerSecrets⟩ hookOkWorld =
      (Except.error "HTTP 429 Too Many Requests", ([] : List NetCall)) :=
  ⟨by decide, C1_429_reraised_without_retry "HTTP 429 Too Many Requests"
    ⟨apiEnv, bearerSecrets⟩ hookOkWorld (by decide)⟩

/-- C2 (counterexample): "Unknown network error" contains none of the
recognized tokens, yet the error handler raises it rather than
returning the structured retry-requested value. -/
theorem C2_counterexample :
    recognizedTokens.all (fun tok => !(containsTok "Unknown network error" tok)) = true ∧
    errorHandler "Unknown network error" ⟨hookEnv, emptySecrets⟩ hookOkWorld =
      (Except.error "Unknown network error", ([] : List NetCall)) :=
  ⟨by decide, rfl⟩

/-- C2 (amended): for every error whose message contains none of the
recognized tokens, the error handler re-raises the original error
rather than returning a structured retry-requested value. -/
theorem C2_unrecognized_reraised (msg : String) (ctx : Context) (w : World)
    (h : recognizedTokens.all (fun tok => !(containsTok msg tok)) = true) :
    errorHandler msg ctx w = (Except.error msg, ([] : List NetCall)) := rfl

/-- C2 witness: instantiates the amended claim at a concrete
unrecognized message. -/
theorem C2_witness :
    recognizedTokens.all (fun tok => !(containsTok "socket hang up" tok)) = true ∧
    errorHandler "socket hang up" ⟨apiEnv, bearerSecrets⟩ hookOkWorld =
      (Except.error "socket hang up", ([] : List NetCall)) :=
  ⟨by decide, C2_unrecognized_reraised "socket hang up" ⟨apiEnv, bearerSecrets⟩ hookOkWorld
    (by decide)⟩

/-- C3: for every input whose `text` is absent, or empty or
whitespace-only after trimming, `invoke` raises the exact validation
message with no network call, in webhook and API mode alike (the
context, world and mode are arbitrary). -/
theorem C3_blank_text_rejected (params : Params) (ctx : Context) (w : World)
    (h : params.text = none ∨ jsTrim (params.text.getD "") = "") :
    invoke params ctx w =
      (Except.error "text parameter is required and cannot be empty", ([] : List NetCall)) := by
  apply invoke_error_of_blank_text
  rcases h with h | h
  · rw [h]
    rfl
  · rw [h]
    simp

/-- C3 witness: a whitespace-only `text` in API mode is rejected with
the exact message and an empty call trace. -/
theorem C3_witness :
    ((some "   " : Option String) = none ∨ jsTrim ((some "   " : Option String).getD "") = "") ∧
    invoke ⟨some "   ", some "#general", false, none⟩ ⟨apiEnv, bearerSecrets⟩ hookOkWorld =
      (Except.error "text parameter is required and cannot be empty", ([] : List NetCall)) :=
  ⟨Or.inr (by decide), C3_blank_text_rejected ⟨some "   ", some "#general", false, none⟩
    ⟨apiEnv, bearerSecrets⟩ hookOkWorld (Or.inr (by decide))⟩

/-- C4: in API mode, whenever validation passes, the authorization
header and base URL resolve, and the HTTP response is 2xx with a
parsed body whose `ok` is false, `invoke` raises the platform error
message built from the body's error code, defaulting to
"Unknown error" when that field is absent or empty. -/
theorem C4_api_ok_false_platform_error (params : Params) (ctx : Context) (w : World)
    (hdr : String) (authCalls : List NetCall) (apiUrl : String)
    (htext : truthy params.text = true)
    (htrim : ((jsTrim (params.text.getD "")).length == 0) = false)
    (hmode : params.isWebhook = false)
    (hchan : truthy params.channel = true)
    (hctrim : ((jsTrim (params.channel.getD "")).length == 0) = false)
    (hauth : getAuthorizationHeader ctx w = (Except.ok hdr, authCalls))
    (hurl : getBaseURL params ctx.environment = Except.ok apiUrl)
    (h2xx : w.mainResponse.ok = true)
    (hbody : w.mainResponse.bodyJson.ok = false) :
    invoke params ctx w =
      (Except.error ("Slack API error: " ++
        (if truthy w.mainResponse.bodyJson.error then w.mainResponse.bodyJson.error.getD ""
         else "Unknown error")),
       authCalls ++ [NetCall.post (apiUrl ++ "/api/chat.postMessage")]) := by
  simp only [invoke, sendMessageViaAPI]
  rw [htext, htrim, hmode, hchan, hctrim, hauth, hurl, h2xx, hbody]
  simp

/-- C4 witness: a 200 response with body ok false and error
"channel_not_found" makes `invoke` raise a message containing that
code. -/
theorem C4_witness :
    invoke ⟨some "Hello!", some "#invalid", false, none⟩ ⟨apiEnv, bearerSecrets⟩
      ⟨tokOk, ⟨true, 200, "OK", "", ⟨false, some "channel_not_found", none⟩⟩⟩ =
      (Except.error "Slack API error: channel_not_found",
       [NetCall.post "https://slack.com/api/chat.postMessage"]) :=
  C4_api_ok_false_platform_error ⟨some "Hello!", some "#invalid", false, none⟩
    ⟨apiEnv, bearerSecrets⟩ ⟨tokOk, ⟨true, 200, "OK", "", ⟨false, some "channel_not_found", none⟩⟩⟩
    "Bearer xoxb-1" [] "https://slack.com"
    (by decide) (by decide) rfl (by decide) (by decide) (by decide) (by decide) rfl rfl

/-- C5: in webhook mode, whenever validation passes, the URL resolves
and the HTTP response is 2xx, `invoke` returns overall status
"success" with mode "webhook" after exactly one POST, and the `ok`
flag is true exactly when the response body is the literal string
"ok". -/
theorem C5_webhook_2xx_success (params : Params) (ctx : Context) (w : World) (url : String)
    (htext : truthy params.text = true)
    (htrim : ((jsTrim (params.text.getD "")).length == 0) = false)
    (hmode : params.isWebhook = true)
    (hurl : getBaseURL params ctx.environment = Except.ok url)
    (h2xx : w.mainResponse.ok = true) :
    invoke params ctx w =
      (Except.ok { status := "success", text := params.text.getD ""
                   ok := (w.mainResponse.bodyText == "ok"), mode := "webhook"
                   channel := none, ts := none },
       [NetCall.post url]) := by
  simp only [invoke, sendMessageViaWebhook]
  rw [htext, htrim, hmode, hurl, h2xx]
  simp

/-- C5 witness: a 200 webhook response with the non-ok body
"invalid_payload" still yields status "success" with `ok := false`. -/
theorem C5_witness :
    invoke ⟨some "Hello!", none, true, none⟩ ⟨hookEnv, emptySecrets⟩
      ⟨tokOk, ⟨true, 200, "OK", "invalid_payload", ⟨true, none, none⟩⟩⟩ =
      (Except.ok ⟨"success", "Hello!", false, "webhook", none, none⟩,
       [NetCall.post "https://hooks.example.com/svc"]) :=
  C5_webhook_2xx_success ⟨some "Hello!", none, true, none⟩ ⟨hookEnv, emptySecrets⟩
    ⟨tokOk, ⟨true, 200, "OK", "invalid_payload", ⟨true, none, none⟩⟩⟩
    "https://hooks.example.com/svc"
    (by decide) (by decide) rfl rfl rfl

/-- C6: the authorization resolver tries the four schemes in the fixed
priority order bearer, basic, pre-issued OAuth2, client-credentials
and returns on the first match — in particular a truthy bearer secret
wins regardless of every other secret — and when no scheme matches it
fails with the "No authentication configured" error. -/
theorem C6_auth_priority_ladder (ctx : Context) (w : World) :
    (truthy ctx.secrets.BEARER_AUTH_TOKEN = true →
      getAuthorizationHeader ctx w =
        (Except.ok (bearerize (ctx.secrets.BEARER_AUTH_TOKEN.getD "")), [])) ∧
    (truthy ctx.secrets.BEARER_AUTH_TOKEN = false →
      (truthy ctx.secrets.BASIC_PASSWORD && truthy ctx.secrets.BASIC_USERNAME) = true →
      getAuthorizationHeader ctx w =
        (Except.ok ("Basic " ++ btoa (ctx.secrets.BASIC_USERNAME.getD "" ++ ":" ++
          ctx.secrets.BASIC_PASSWORD.getD "")), [])) ∧
    (truthy ctx.secrets.BEARER_AUTH_TOKEN = false →
      (truthy ctx.secrets.BASIC_PASSWORD && truthy ctx.secrets.BASIC_USERNAME) = false →
      truthy ctx.secrets.OAUTH2_AUTHORIZATION_CODE_ACCESS_TOKEN = true →
      getAuthorizationHeader ctx w =
        (Except.ok (bearerize (ctx.secrets.OAUTH2_AUTHORIZATION_CODE_ACCESS_TOKEN.getD "")), [])) ∧
    (truthy ctx.secrets.BEARER_AUTH_TOKEN = false →
      (truthy ctx.secrets.BASIC_PASSWORD && truthy ctx.secrets.BASIC_USERNAME) = false →
      truthy ctx.secrets.OAUTH2_AUTHORIZATION_CODE_ACCESS_TOKEN = false →
      truthy ctx.secrets.OAUTH2_CLIENT_CREDENTIALS_CLIENT_SECRET = true →
      truthy ctx.environment.OAUTH2_CLIENT_CREDENTIALS_TOKEN_URL = true →
      truthy ctx.environment.OAUTH2_CLIENT_CREDENTIALS_CLIENT_ID = true →
      w.tokenResponse.ok = true →
      truthy w.tokenResponse.access_token = true →
      getAuthorizationHeader ctx w =
        (Except.ok ("Bearer " ++ w.tokenResponse.access_token.getD ""),
         [NetCall.post (ctx.environment.OAUTH2_CLIENT_CREDENTIALS_TOKEN_URL.getD "")])) ∧
    (truthy ctx.secrets.BEARER_AUTH_TOKEN = false →
      (truthy ctx.secrets.BASIC_PASSWORD && truthy ctx.secrets.BASIC_USERNAME) = false →
      truthy ctx.secrets.OAUTH2_AUTHORIZATION_CODE_ACCESS_TOKEN = false →
      truthy ctx.secrets.OAUTH2_CLIENT_CREDENTIALS_CLIENT_SECRET = false →
      getAuthorizationHeader ctx w = (Except.error noAuthMsg, [])) :=
  ⟨fun h1 => auth_bearer ctx w h1,
   fun h1 h2 => auth_basic ctx w h1 h2,
   fun h1 h2 h3 => auth_ac ctx w h1 h2 h3,
   fun h1 h2 h3 h4 h5 h6 h7 h8 => auth_cc ctx w h1 h2 h3 h4 h5 h6 h7 h8,
   fun h1 h2 h3 h4 => auth_none ctx w h1 h2 h3 h4⟩

/-- C6 witness: with a bearer secret and a complete basic pair both
present, the bearer scheme wins. -/
theorem C6_witness :
    getAuthorizationHeader
      ⟨emptyEnv, ⟨some "xoxb-1", some "admin", some "hunter2", none, none⟩⟩ hookOkWorld =
      (Except.ok "Bearer xoxb-1", ([] : List NetCall)) :=
  (C6_auth_priority_ladder ⟨emptyEnv, ⟨some "xoxb-1", some "admin", some "hunter2", none, none⟩⟩
    hookOkWorld).1 (by decide)

/-- C7: the address resolver returns the explicit address parameter
when truthy, else the environment address when truthy, else fails with
the "No URL specified" error; the chosen address is returned with its
one trailing slash removed when it ends in a slash. It is a pure
function of its two arguments and reports no network call. -/
theorem C7_address_resolution (params : Params) (env : Env) :
    (truthy params.address = true →
      getBaseURL params env = Except.ok
        (if jsEndsWithSlash (params.address.getD "") then jsDropLast (params.address.getD "")
         else params.address.getD "")) ∧
    (truthy params.address = false → truthy env.ADDRESS = true →
      getBaseURL params env = Except.ok
        (if jsEndsWithSlash (env.ADDRESS.getD "") then jsDropLast (env.ADDRESS.getD "")
         else env.ADDRESS.getD "")) ∧
    (truthy params.address = false → truthy env.ADDRESS = false →
      getBaseURL params env =
        Except.error "No URL specified. Provide address parameter or ADDRESS environment variable") := by
  refine ⟨?_, ?_, ?_⟩
  · intro h1
    simp [getBaseURL, h1]
  · intro h1 h2
    simp [getBaseURL, h1, h2]
  · intro h1 h2
    simp [getBaseURL, h1, h2]

/-- C7 witness: an explicit address parameter ending in a slash wins
over the environment address and is returned with the slash
stripped. -/
theorem C7_witness :
    getBaseURL ⟨some "hi", none, false, some "https://custom.example.com/"⟩ apiEnv =
      Except.ok "https://custom.example.com" :=
  (C7_address_resolution ⟨some "hi", none, false, some "https://custom.example.com/"⟩ apiEnv).1
    (by decide)

/-- A 4001-character message text. -/
def longText : String := String.mk (List.replicate 4001 'a')

/-- Dropping whitespace from a run of letters changes nothing. -/
theorem dropWhile_ws_replicate (n : Nat) :
    (List.replicate n 'a').dropWhile Char.isWhitespace = List.replicate n 'a' := by
  have hws : Char.isWhitespace 'a' = false := by decide
  cases n with
  | zero => rfl
  | succ m =>
    rw [List.replicate_succ, List.dropWhile_cons, hws]
    simp

/-- Trimming a run of letters changes nothing. -/
theorem jsTrim_replicate (n : Nat) :
    jsTrim (String.mk (List.replicate n 'a')) = String.mk (List.replicate n 'a') := by
  simp [jsTrim, String.toList, dropWhile_ws_replicate, List.reverse_replicate]

/-- The 4001-character text is not the empty string. -/
theorem longText_ne_empty : (longText == "") = false := by
  have hne : longText ≠ "" := by
    intro he
    have hlen : longText.length = "".length := congrArg String.length he
    rw [show longText.length = (List.replicate 4001 'a').length from rfl,
      List.length_replicate] at hlen
    exact absurd hlen (by decide)
  exact beq_eq_false_iff_ne.mpr hne

/-- Webhook-mode success shape of `invoke`: with valid text, webhook
mode, a resolved URL and a 2xx response, the result is the success
record after exactly one POST. -/
theorem invoke_webhook_ok (params : Params) (ctx : Context) (w : World) (url : String)
    (htext : truthy params.text = true)
    (htrim : ((jsTrim (params.text.getD "")).length == 0) = false)
    (hmode : params.isWebhook = true)
    (hurl : getBaseURL params ctx.environment = Except.ok url)
    (h2xx : w.mainResponse.ok = true) :
    invoke params ctx w =
      (Except.ok { status := "success", text := params.text.getD ""
                   ok := (w.mainResponse.bodyText == "ok"), mode := "webhook"
                   channel := none, ts := none },
       [NetCall.post url]) := by
  simp only [invoke, sendMessageViaWebhook]
  rw [htext, htrim, hmode, hurl, h2xx]
  simp

/-- C8 (counterexample): a 4001-character text is accepted by `invoke`
and sent successfully — no 4000-character bound is enforced by the
validation. -/
theorem C8_counterexample :
    longText.length = 4001 ∧
    invoke ⟨some longText, none, true, none⟩ ⟨hookEnv, emptySecrets⟩ hookOkWorld =
      (Except.ok ⟨"success", longText, true, "webhook", none, none⟩,
       [NetCall.post "https://hooks.example.com/svc"]) := by
  constructor
  · show (List.replicate 4001 'a').length = 4001
    exact List.length_replicate 4001 'a'
  · have htext : truthy (some longText) = true := by
      simp [truthy, longText_ne_empty]
    have htrim : ((jsTrim ((some longText : Option String).getD "")).length == 0) = false := by
      show ((jsTrim longText).length == 0) = false
      rw [show longText = String.mk (List.replicate 4001 'a') from rfl, jsTrim_replicate]
      show ((List.replicate 4001 'a').length == 0) = false
      rw [List.length_replicate]
      decide
    have h := invoke_webhook_ok ⟨some longText, none, true, none⟩ ⟨hookEnv, emptySecrets⟩
      hookOkWorld "https://hooks.example.com/svc" htext htrim rfl rfl rfl
    exact h

/-- C8 (amended): every input accepted by `invoke` has a truthy `text`
that is non-empty after trimming; no upper length bound is enforced,
so texts longer than 4000 characters are also accepted. -/
theorem C8_accepted_text_nonblank (params : Params) (ctx : Context) (w : World)
    (r : InvokeResult) (calls : List NetCall)
    (h : invoke params ctx w = (Except.ok r, calls)) :
    truthy params.text = true ∧ jsTrim (params.text.getD "") ≠ "" := by
  cases hc : (!(truthy params.text) || ((jsTrim (params.text.getD "")).length == 0)) with
  | true =>
    rw [invoke_error_of_blank_text params ctx w hc] at h
    simp at h
  | false =>
    have ha : truthy params.text = true := by
      cases ht : truthy params.text
      · rw [ht] at hc
        simp at hc
      · rfl
    have hlen : ((jsTrim (params.text.getD "")).length == 0) = false := by
      cases hl : ((jsTrim (params.text.getD "")).length == 0)
      · rfl
      · rw [ha, hl] at hc
        simp at hc
    refine ⟨ha, fun he => ?_⟩
    rw [he] at hlen
    simp at hlen

/-- C8 witness: instantiates the amended claim at a concrete accepted
request. -/
theorem C8_witness :
    truthy (some "Hello!") = true ∧ jsTrim ((some "Hello!" : Option String).getD "") ≠ "" :=
  C8_accepted_text_nonblank ⟨some "Hello!", none, true, none⟩ ⟨hookEnv, emptySecrets⟩ hookOkWorld
    ⟨"success", "Hello!", true, "webhook", none, none⟩
    [NetCall.post "https://hooks.example.com/svc"] (by decide)

/-- C9: in API mode, whenever validation passes, the authorization
header and base URL resolve, and the HTTP response is 2xx with a body
whose `ok` is true, `invoke` returns status "success" and mode "api",
carries the body's `ts` field unchanged, and echoes the input channel
unchanged. -/
theorem C9_api_success_ts_channel (params : Params) (ctx : Context) (w : World)
    (hdr : String) (authCalls : List NetCall) (apiUrl : String)
    (htext : truthy params.text = true)
    (htrim : ((jsTrim (params.text.getD "")).length == 0) = false)
    (hmode : params.isWebhook = false)
    (hchan : truthy params.channel = true)
    (hctrim : ((jsTrim (params.channel.getD "")).length == 0) = false)
    (hauth : getAuthorizationHeader ctx w = (Except.ok hdr, authCalls))
    (hurl : getBaseURL params ctx.environment = Except.ok apiUrl)
    (h2xx : w.mainResponse.ok = true)
    (hbody : w.mainResponse.bodyJson.ok = true) :
    invoke params ctx w =
      (Except.ok { status := "success", text := params.text.getD ""
                   ok := true, mode := "api", channel := params.channel
                   ts := w.mainResponse.bodyJson.ts },
       authCalls ++ [NetCall.post (apiUrl ++ "/api/chat.postMessage")]) := by
  simp only [invoke, sendMessageViaAPI]
  rw [htext, htrim, hmode, hchan, hctrim, hauth, hurl, h2xx, hbody]
  simp [hbody]

/-- C9 witness: a 200 response with body ok true and ts "123.456"
yields a success result carrying that literal ts and the echoed
channel "#general". -/
theorem C9_witness :
    invoke ⟨some "Hello!", some "#general", false, none⟩ ⟨apiEnv, bearerSecrets⟩
      ⟨tokOk, ⟨true, 200, "OK", "", ⟨true, none, some "123.456"⟩⟩⟩ =
      (Except.ok ⟨"success", "Hello!", true, "api", some "#general", some "123.456"⟩,
       [NetCall.post "https://slack.com/api/chat.postMessage"]) :=
  C9_api_success_ts_channel ⟨some "Hello!", some "#general", false, none⟩
    ⟨apiEnv, bearerSecrets⟩ ⟨tokOk, ⟨true, 200, "OK", "", ⟨true, none, some "123.456"⟩⟩⟩
    "Bearer xoxb-1" [] "https://slack.com"
    (by decide) (by decide) rfl (by decide) (by decide) (by decide) (by decide) rfl rfl

/-- C10: with no bearer secret and an incomplete basic pair (exactly
one of username and password present), the resolver silently skips the
basic scheme: a truthy pre-issued OAuth2 token is used instead, and
when neither lower-priority scheme matches it fails with the generic
"No authentication configured" error, never mentioning the incomplete
pair. -/
theorem C10_incomplete_basic_skipped (ctx : Context) (w : World)
    (hb : truthy ctx.secrets.BEARER_AUTH_TOKEN = false)
    (hpair : truthy ctx.secrets.BASIC_USERNAME ≠ truthy ctx.secrets.BASIC_PASSWORD) :
    (truthy ctx.secrets.OAUTH2_AUTHORIZATION_CODE_ACCESS_TOKEN = true →
      getAuthorizationHeader ctx w =
        (Except.ok (bearerize (ctx.secrets.OAUTH2_AUTHORIZATION_CODE_ACCESS_TOKEN.getD "")), [])) ∧
    (truthy ctx.secrets.OAUTH2_AUTHORIZATION_CODE_ACCESS_TOKEN = false →
      truthy ctx.secrets.OAUTH2_CLIENT_CREDENTIALS_CLIENT_SECRET = false →
      getAuthorizationHeader ctx w = (Except.error noAuthMsg, [])) := by
  have hbasic : (truthy ctx.secrets.BASIC_PASSWORD && truthy ctx.secrets.BASIC_USERNAME) = false := by
    cases hu : truthy ctx.secrets.BASIC_USERNAME <;>
      cases hp : truthy ctx.secrets.BASIC_PASSWORD <;> simp_all
  exact ⟨fun h3 => auth_ac ctx w hb hbasic h3,
    fun h3 h4 => auth_none ctx w hb hbasic h3 h4⟩

/-- C10 witness: a username with no password and no other scheme
yields the generic no-authentication-configured error. -/
theorem C10_witness :
    getAuthorizationHeader ⟨emptyEnv, ⟨none, some "admin", none, none, none⟩⟩ hookOkWorld =
      (Except.error noAuthMsg, ([] : List NetCall)) :=
  (C10_incomplete_basic_skipped ⟨emptyEnv, ⟨none, some "admin", none, none, none⟩⟩ hookOkWorld
    (by decide) (by decide)).2 (by decide) (by decide)
